import Mathlib

/-!
Shallow embedding of the midoks/network_probe diagnostics engine.

Each prober (modules/ping.rs, modules/tcping.rs, modules/traceroute.rs,
modules/website.rs, modules/dns.rs), the port-range parser (cli/mod.rs) and
the channel structure of the session multiplexer (websocket/mod.rs) is
translated into a Lean function.  Network effects (name resolution, the
outcome of each timed attempt, transport responses) are supplied by explicit
oracle records, so every function is pure and executable.  The f64 values the
probers compute (round-trip times, loss percentages) are modelled as exact
rationals; the two fold seeds `f64::INFINITY` and `f64::NEG_INFINITY` are
modelled as the top of `WithTop` and the bottom of `WithBot`.
-/

namespace NetworkProbe

/-- utils/error.rs: the `NetworkError` enum (each variant carries its
formatted message). -/
inductive NetworkError where
  | Io (msg : String)
  | Dns (msg : String)
  | Ping (msg : String)
  | Tcp (msg : String)
  | Http (msg : String)
  | Traceroute (msg : String)
  | Timeout (msg : String)
  | InvalidInput (msg : String)
  | Other (msg : String)
  deriving DecidableEq, Repr

/-- Decidable equality for `Except`, needed to evaluate prober results on
concrete inputs. -/
instance {e a : Type} [DecidableEq e] [DecidableEq a] : DecidableEq (Except e a)
  | .ok x, .ok y =>
    if h : x = y then .isTrue (by rw [h])
    else .isFalse (fun hc => by cases hc; exact h rfl)
  | .error x, .error y =>
    if h : x = y then .isTrue (by rw [h])
    else .isFalse (fun hc => by cases hc; exact h rfl)
  | .ok _, .error _ => .isFalse (fun hc => by cases hc)
  | .error _, .ok _ => .isFalse (fun hc => by cases hc)

/-- Outcome of one timed attempt as seen through
`timeout(config.timeout, ...)`: `Ok(Ok(..))` is a success with the measured
elapsed milliseconds, `Ok(Err(e))` is a per-attempt transport failure, and
`Err(_)` is an attempt timeout. -/
inductive AttemptOutcome where
  | success (rtt : ℚ)
  | failure
  | timeout
  deriving DecidableEq, Repr

/-- The measured round-trip time of a successful attempt, if any. -/
def AttemptOutcome.rtt : AttemptOutcome → Option ℚ
  | .success r => some r
  | .failure => none
  | .timeout => none

/-- Whether the attempt succeeded. -/
def AttemptOutcome.isSuccess : AttemptOutcome → Bool
  | .success _ => true
  | .failure => false
  | .timeout => false

/-! ## modules/ping.rs -/

/-- modules/ping.rs: `PingConfig`.  The timeout is kept in milliseconds. -/
structure PingConfig where
  host : String
  count : Nat
  timeout : Nat
  packet_size : Nat
  deriving DecidableEq, Repr

/-- modules/ping.rs: `PingResult` (the capture timestamp is not modelled).
`min_rtt` and `max_rtt` live in the extended rationals because the source
folds from `f64::INFINITY` and `f64::NEG_INFINITY` respectively. -/
structure PingResult where
  host : String
  ip : String
  packet_loss : ℚ
  min_rtt : WithTop ℚ
  max_rtt : WithBot ℚ
  avg_rtt : ℚ
  packets_sent : Nat
  packets_received : Nat
  deriving DecidableEq

/-- Oracle for the network effects of one `PingService::ping` run:
the first `lookup_host` (whose `.ip()` becomes the probed address), the
per-attempt outcome, and the second `lookup_host` (whose `.to_string()`
becomes the `ip` field of the result).  `none` models an empty resolution. -/
structure PingNet where
  resolveAddr : Option String
  outcomes : Nat → AttemptOutcome
  resolveIp : Option String

/-- One step of the ping loop body acting on
`(packets_sent, packets_received, rtt_values)`. -/
def pingStep (acc : Nat × Nat × List ℚ) (o : AttemptOutcome) : Nat × Nat × List ℚ :=
  match o with
  | .success rtt => (acc.1 + 1, acc.2.1 + 1, acc.2.2 ++ [rtt])
  | .failure => (acc.1 + 1, acc.2.1, acc.2.2)
  | .timeout => (acc.1 + 1, acc.2.1, acc.2.2)

/-- The `for i in 0..config.count` loop of `PingService::ping`, returning
`(packets_sent, packets_received, rtt_values)`. -/
def pingLoop (outcomes : Nat → AttemptOutcome) (count : Nat) : Nat × Nat × List ℚ :=
  (List.range count).foldl (fun acc i => pingStep acc (outcomes i)) (0, 0, [])

/-- The round-trip times of the successful attempts among the first `n`, in
order. -/
def successRtts (outcomes : Nat → AttemptOutcome) (n : Nat) : List ℚ :=
  ((List.range n).map outcomes).filterMap AttemptOutcome.rtt

/-- The fold `rtt_values.iter().fold(f64::INFINITY, |a, &b| a.min(b))`. -/
def foldMinRtt (l : List ℚ) : WithTop ℚ :=
  l.foldl (fun (a : WithTop ℚ) (b : ℚ) => min a (b : WithTop ℚ)) ⊤

/-- The fold `rtt_values.iter().fold(f64::NEG_INFINITY, |a, &b| a.max(b))`. -/
def foldMaxRtt (l : List ℚ) : WithBot ℚ :=
  l.foldl (fun (a : WithBot ℚ) (b : ℚ) => max a (b : WithBot ℚ)) ⊥

/-- modules/ping.rs: `PingService::ping`. -/
def PingService.ping (config : PingConfig) (net : PingNet) :
    Except NetworkError PingResult :=
  match net.resolveAddr with
  | none => .error (.Dns ("Could not resolve " ++ config.host))
  | some _host_addr =>
    let st := pingLoop net.outcomes config.count
    let packets_sent := st.1
    let packets_received := st.2.1
    let rtt_values := st.2.2
    if packets_received = 0 then
      .error (.Ping ("All packets lost for " ++ config.host))
    else
      let packet_loss := ((packets_sent - packets_received : Nat) : ℚ) / (packets_sent : ℚ) * 100
      let min_rtt := foldMinRtt rtt_values
      let max_rtt := foldMaxRtt rtt_values
      let avg_rtt := rtt_values.sum / (rtt_values.length : ℚ)
      match net.resolveIp with
      | none => .error (.Dns ("Could not resolve " ++ config.host))
      | some ip =>
        .ok { host := config.host, ip := ip, packet_loss := packet_loss,
              min_rtt := min_rtt, max_rtt := max_rtt, avg_rtt := avg_rtt,
              packets_sent := packets_sent, packets_received := packets_received }

/-- Observable side effects of the ping loop body: the echo request
`pinger.ping(sequence, &[0; 56])` and the unconditional
`tokio::time::sleep(Duration::from_millis(100))`. -/
inductive PingEvent where
  | send (seq : Nat) (payload : List Nat)
  | sleep (ms : Nat)
  deriving DecidableEq, Repr

/-- The events of iteration `i` of the ping loop: one echo request with the
56-byte zero payload, then the unconditional 100 ms sleep. -/
def pingAttemptEvents (i : Nat) : List PingEvent :=
  [PingEvent.send i (List.replicate 56 0), PingEvent.sleep 100]

/-- The event trace of a `PingService::ping` run (empty when resolution
fails before the loop). -/
def pingTrace (config : PingConfig) (net : PingNet) : List PingEvent :=
  match net.resolveAddr with
  | none => []
  | some _ => (List.range config.count).flatMap pingAttemptEvents

/-! ## modules/tcping.rs -/

/-- modules/tcping.rs: `TcpingConfig` (durations in milliseconds). -/
structure TcpingConfig where
  host : String
  port : Nat
  count : Nat
  timeout : Nat
  delay : Nat
  deriving DecidableEq, Repr

/-- modules/tcping.rs: `TcpingResult` (timestamp not modelled). -/
structure TcpingResult where
  host : String
  port : Nat
  ip : String
  success : Bool
  avg_rtt : ℚ
  min_rtt : WithTop ℚ
  max_rtt : WithBot ℚ
  attempts : Nat
  successful_attempts : Nat
  packet_loss : ℚ
  deriving DecidableEq

/-- Oracle for one `TcpingService::tcping` run: per-attempt connect outcome
and the final `lookup_host` used to fill the `ip` field. -/
structure TcpingNet where
  outcomes : Nat → AttemptOutcome
  resolveIp : Option String

/-- One step of the tcping loop body acting on
`(rtt_values, successful_attempts)`. -/
def tcpingStep (acc : List ℚ × Nat) (o : AttemptOutcome) : List ℚ × Nat :=
  match o with
  | .success rtt => (acc.1 ++ [rtt], acc.2 + 1)
  | .failure => acc
  | .timeout => acc

/-- The `for i in 0..config.count` loop of `TcpingService::tcping`. -/
def tcpingLoop (outcomes : Nat → AttemptOutcome) (count : Nat) : List ℚ × Nat :=
  (List.range count).foldl (fun acc i => tcpingStep acc (outcomes i)) ([], 0)

/-- modules/tcping.rs: `TcpingService::tcping`. -/
def TcpingService.tcping (config : TcpingConfig) (net : TcpingNet) :
    Except NetworkError TcpingResult :=
  let addr := config.host ++ ":" ++ toString config.port
  let st := tcpingLoop net.outcomes config.count
  let rtt_values := st.1
  let successful_attempts := st.2
  if successful_attempts = 0 then
    .error (.Tcp ("All connections to " ++ addr ++ " failed"))
  else
    let packet_loss := ((config.count - successful_attempts : Nat) : ℚ) / (config.count : ℚ) * 100
    let min_rtt := foldMinRtt rtt_values
    let max_rtt := foldMaxRtt rtt_values
    let avg_rtt := rtt_values.sum / (rtt_values.length : ℚ)
    match net.resolveIp with
    | none => .error (.Dns ("Could not resolve " ++ config.host))
    | some ip =>
      .ok { host := config.host, port := config.port, ip := ip,
            success := decide (0 < successful_attempts),
            avg_rtt := avg_rtt, min_rtt := min_rtt, max_rtt := max_rtt,
            attempts := config.count, successful_attempts := successful_attempts,
            packet_loss := packet_loss }

/-- Observable side effects of the tcping loop body. -/
inductive TcpEvent where
  | connect (attempt : Nat)
  | sleep (ms : Nat)
  deriving DecidableEq, Repr

/-- The event trace of the tcping loop: one connect per iteration, and the
guarded sleep `if i < config.count - 1` between consecutive attempts. -/
def tcpingTrace (config : TcpingConfig) : List TcpEvent :=
  (List.range config.count).flatMap (fun i =>
    TcpEvent.connect i ::
      (if i < config.count - 1 then [TcpEvent.sleep config.delay] else []))

/-! ## modules/traceroute.rs -/

/-- modules/traceroute.rs: `Hop`. -/
structure Hop where
  hop_number : Nat
  ip : Option String
  hostname : Option String
  rtt : Option ℚ
  success : Bool
  deriving DecidableEq, Repr

/-- modules/traceroute.rs: `TracerouteConfig` (durations in milliseconds). -/
structure TracerouteConfig where
  host : String
  max_hops : Nat
  timeout : Nat
  delay : Nat
  packet_size : Nat
  deriving DecidableEq, Repr

/-- modules/traceroute.rs: `TracerouteResult` (timestamp not modelled). -/
structure TracerouteResult where
  host : String
  ip : String
  hops : List Hop
  max_hops : Nat
  total_time : ℚ
  deriving DecidableEq, Repr

/-- Oracle for one `TracerouteService::traceroute` run: the target
resolution, the outcome of `simulate_ttl_probe` at each TTL (`some (ip, rtt)`
on response, `none` on timeout or unreachability), and the measured total
elapsed seconds. -/
structure TracerouteNet where
  resolve : Option String
  probe : Nat → Option (String × ℚ)
  elapsed : ℚ

/-- modules/traceroute.rs: `reverse_dns_lookup` (the source always succeeds
with a fabricated name built from the last dot-separated component). -/
def reverse_dns_lookup (ip : String) : Except NetworkError String :=
  .ok ("router-" ++ (((ip.splitOn ".").getLast?).getD "unknown") ++ ".example.com")

/-- modules/traceroute.rs: `probe_hop` — a responding probe becomes a
successful `Hop`, a non-responding probe becomes an unsuccessful `Hop` with
index only; `probe_hop` itself never returns an error. -/
def probe_hop (probe : Nat → Option (String × ℚ)) (ttl : Nat) : Hop :=
  match probe ttl with
  | some (ip, rtt) =>
    { hop_number := ttl, ip := some ip,
      hostname := (reverse_dns_lookup ip).toOption,
      rtt := some rtt, success := true }
  | none =>
    { hop_number := ttl, ip := none, hostname := none, rtt := none,
      success := false }

/-- The target test `hop.ip.as_ref().map(|ip| ip == &target_ip).unwrap_or(false)`. -/
def hopMatchesTarget (hop : Hop) (targetIp : String) : Bool :=
  (hop.ip.map (fun ip => ip == targetIp)).getD false

/-- The `for ttl in 1..=config.max_hops` loop of
`TracerouteService::traceroute`: push the probed hop, break once its
resolved address equals the target address.  `fuel` is the number of TTL
levels still inside the budget. -/
def tracerouteWalk (probe : Nat → Option (String × ℚ)) (targetIp : String) :
    Nat → Nat → List Hop
  | _, 0 => []
  | ttl, fuel + 1 =>
    let hop := probe_hop probe ttl
    hop :: (if hopMatchesTarget hop targetIp then []
            else tracerouteWalk probe targetIp (ttl + 1) fuel)

/-- modules/traceroute.rs: `TracerouteService::traceroute`. -/
def TracerouteService.traceroute (config : TracerouteConfig)
    (net : TracerouteNet) : Except NetworkError TracerouteResult :=
  match net.resolve with
  | none => .error (.Dns ("Could not resolve " ++ config.host))
  | some target_ip =>
    .ok { host := config.host, ip := target_ip,
          hops := tracerouteWalk net.probe target_ip 1 config.max_hops,
          max_hops := config.max_hops, total_time := net.elapsed }

/-! ## modules/website.rs -/

/-- modules/website.rs: `WebsiteTestConfig` (timeout in milliseconds;
headers as an association list). -/
structure WebsiteTestConfig where
  url : String
  method : String
  timeout : Nat
  follow_redirects : Bool
  verify_ssl : Bool
  headers : List (String × String)
  deriving DecidableEq, Repr

/-- modules/website.rs: `WebsiteTestResult` (timestamp not modelled;
`ssl_info` omitted — the certificate fetch is a stub the spec excludes). -/
structure WebsiteTestResult where
  url : String
  status_code : Option Nat
  response_time : ℚ
  content_length : Option Nat
  success : Bool
  error_message : Option String
  headers : List (String × String)
  deriving DecidableEq, Repr

/-- Outcome of `request.send()`: a response with status, advertised content
length, UTF-8-decodable headers and the measured elapsed milliseconds, or a
transport error (DNS, connect, TLS, timeout) with its display string. -/
inductive HttpTransport where
  | ok (status : Nat) (content_length : Option Nat)
    (headers : List (String × String)) (elapsed : ℚ)
  | err (msg : String) (elapsed : ℚ)
  deriving DecidableEq, Repr

/-- Oracle for one `test_website` call: the `Client::builder().build()`
error, if any, and the transport outcome of the request. -/
structure WebsiteNet where
  build_err : Option String
  transport : HttpTransport
  deriving DecidableEq, Repr

/-- modules/website.rs: `config.method.to_uppercase()`, modelled over the
underlying character list (the ASCII mapping, which is all the method
strings use). -/
def methodToUpper (s : String) : String :=
  ⟨s.data.map Char.toUpper⟩

/-- The `match config.method.to_uppercase().as_str()` dispatch of
`test_website`: the five supported methods, or `none`. -/
def httpMethodCase (method : String) : Option String :=
  match methodToUpper method with
  | "GET" => some "GET"
  | "POST" => some "POST"
  | "PUT" => some "PUT"
  | "DELETE" => some "DELETE"
  | "HEAD" => some "HEAD"
  | _ => none

/-- modules/website.rs: `WebsiteTestService::test_website`. -/
def WebsiteTestService.test_website (config : WebsiteTestConfig)
    (net : WebsiteNet) : Except NetworkError WebsiteTestResult :=
  match net.build_err with
  | some e => .error (.Http ("Failed to build HTTP client: " ++ e))
  | none =>
    match httpMethodCase config.method with
    | none => .error (.InvalidInput ("Unsupported HTTP method: " ++ config.method))
    | some _m =>
      match net.transport with
      | .ok status content_length headers elapsed =>
        .ok { url := config.url, status_code := some status,
              response_time := elapsed, content_length := content_length,
              success := decide (200 ≤ status ∧ status < 300),
              error_message := none, headers := headers }
      | .err msg elapsed =>
        .ok { url := config.url, status_code := none, response_time := elapsed,
              content_length := none, success := false,
              error_message := some msg, headers := [] }

/-- Whether the call reaches `request.send()` — network activity happens
only when the client was built and the method was accepted. -/
def websiteSends (config : WebsiteTestConfig) (net : WebsiteNet) : Bool :=
  net.build_err.isNone && (httpMethodCase config.method).isSome

/-! ## modules/dns.rs -/

/-- modules/dns.rs: `DnsQueryType`. -/
inductive DnsQueryType where
  | A
  | AAAA
  | CNAME
  | MX
  | TXT
  | NS
  | SOA
  | PTR
  | ALL
  deriving DecidableEq, Repr

/-- modules/dns.rs: the `Display` instance of `DnsQueryType`. -/
def DnsQueryType.display : DnsQueryType → String
  | .A => "A"
  | .AAAA => "AAAA"
  | .CNAME => "CNAME"
  | .MX => "MX"
  | .TXT => "TXT"
  | .NS => "NS"
  | .SOA => "SOA"
  | .PTR => "PTR"
  | .ALL => "ALL"

/-- modules/dns.rs: `DnsRecord`. -/
structure DnsRecord where
  record_type : String
  value : String
  ttl : Nat
  deriving DecidableEq, Repr

/-- modules/dns.rs: `DnsQueryResult` (timestamp not modelled). -/
structure DnsQueryResult where
  domain : String
  query_type : String
  records : List DnsRecord
  response_time : ℚ
  deriving DecidableEq, Repr

/-- modules/dns.rs: `DnsConfig` (timeout in milliseconds). -/
structure DnsConfig where
  domain : String
  query_type : DnsQueryType
  nameserver : Option String
  timeout : Nat
  deriving DecidableEq, Repr

/-- One address record held by the resolver for `lookup_ip`: family, textual
address and the TTL the resolver has for it.  The iterator the source reads
yields only the address; the TTL stays inside the resolver. -/
inductive LookupAddr where
  | v4 (addr : String) (ttl : Nat)
  | v6 (addr : String) (ttl : Nat)
  deriving DecidableEq, Repr

/-- One MX record held by the resolver: exchange, preference and TTL. -/
structure MxData where
  exchange : String
  preference : Nat
  ttl : Nat
  deriving DecidableEq, Repr

/-- Oracle for one `DnsService::query` call: each resolver lookup either
fails with a message or yields its record list (each record carrying the
TTL the resolver has for it), plus the measured elapsed milliseconds. -/
structure DnsNet where
  lookup_ip : Except String (List LookupAddr)
  mx_lookup : Except String (List MxData)
  txt_lookup : Except String (List (String × Nat))
  ns_lookup : Except String (List (String × Nat))
  elapsed : ℚ

/-- The `DnsQueryType::A` branch of `query`: keep the V4 addresses, emit
each with the hard-coded default TTL 300. -/
def dnsBranchA (config : DnsConfig) (net : DnsNet) :
    Except NetworkError DnsQueryResult :=
  match net.lookup_ip with
  | .error e => .error (.Dns ("A record lookup failed: " ++ e))
  | .ok addrs =>
    let records := addrs.filterMap (fun a =>
      match a with
      | .v4 addr _ttl => some { record_type := "A", value := addr, ttl := 300 }
      | .v6 _ _ => none)
    .ok { domain := config.domain, query_type := config.query_type.display,
          records := records, response_time := net.elapsed }

/-- The `DnsQueryType::AAAA` branch of `query`. -/
def dnsBranchAAAA (config : DnsConfig) (net : DnsNet) :
    Except NetworkError DnsQueryResult :=
  match net.lookup_ip with
  | .error e => .error (.Dns ("AAAA record lookup failed: " ++ e))
  | .ok addrs =>
    let records := addrs.filterMap (fun a =>
      match a with
      | .v4 _ _ => none
      | .v6 addr _ttl => some { record_type := "AAAA", value := addr, ttl := 300 })
    .ok { domain := config.domain, query_type := config.query_type.display,
          records := records, response_time := net.elapsed }

/-- The `DnsQueryType::MX` branch of `query`. -/
def dnsBranchMX (config : DnsConfig) (net : DnsNet) :
    Except NetworkError DnsQueryResult :=
  match net.mx_lookup with
  | .error e => .error (.Dns ("MX lookup failed: " ++ e))
  | .ok mxs =>
    let records := mxs.map (fun mx =>
      { record_type := "MX",
        value := mx.exchange ++ " (priority: " ++ toString mx.preference ++ ")",
        ttl := 300 : DnsRecord })
    .ok { domain := config.domain, query_type := config.query_type.display,
          records := records, response_time := net.elapsed }

/-- The `DnsQueryType::TXT` branch of `query`. -/
def dnsBranchTXT (config : DnsConfig) (net : DnsNet) :
    Except NetworkError DnsQueryResult :=
  match net.txt_lookup with
  | .error e => .error (.Dns ("TXT lookup failed: " ++ e))
  | .ok txts =>
    let records := txts.map (fun t =>
      { record_type := "TXT", value := t.1, ttl := 300 : DnsRecord })
    .ok { domain := config.domain, query_type := config.query_type.display,
          records := records, response_time := net.elapsed }

/-- The `DnsQueryType::NS` branch of `query`. -/
def dnsBranchNS (config : DnsConfig) (net : DnsNet) :
    Except NetworkError DnsQueryResult :=
  match net.ns_lookup with
  | .error e => .error (.Dns ("NS lookup failed: " ++ e))
  | .ok nss =>
    let records := nss.map (fun n =>
      { record_type := "NS", value := n.1, ttl := 300 : DnsRecord })
    .ok { domain := config.domain, query_type := config.query_type.display,
          records := records, response_time := net.elapsed }

/-- modules/dns.rs: `DnsService::query`.  The CNAME/SOA/PTR/ALL arm rebuilds
the config with `query_type := A` and immediately re-enters the `A` branch,
exactly as the boxed recursive call in the source does. -/
def DnsService.query (config : DnsConfig) (net : DnsNet) :
    Except NetworkError DnsQueryResult :=
  match config.query_type with
  | .A => dnsBranchA config net
  | .AAAA => dnsBranchAAAA config net
  | .MX => dnsBranchMX config net
  | .TXT => dnsBranchTXT config net
  | .NS => dnsBranchNS config net
  | .CNAME => dnsBranchA { config with query_type := DnsQueryType.A } net
  | .SOA => dnsBranchA { config with query_type := DnsQueryType.A } net
  | .PTR => dnsBranchA { config with query_type := DnsQueryType.A } net
  | .ALL => dnsBranchA { config with query_type := DnsQueryType.A } net

/-! ## cli/mod.rs: port scanning -/

/-- The `parse::<u16>()` calls of `parse_port_range`: a non-empty all-digit
string whose value is below 2^16 (the optional leading sign Rust would also
accept is not modelled; the claims never exercise it).  The character data
is read directly so the parser is fully executable. -/
def parseU16 (s : String) : Except String Nat :=
  if s.data ≠ [] ∧ s.data.all Char.isDigit then
    if s.data.foldl (fun acc c => acc * 10 + (c.toNat - 48)) 0 < 65536 then
      .ok (s.data.foldl (fun acc c => acc * 10 + (c.toNat - 48)) 0)
    else .error "invalid port number"
  else .error "invalid port number"

/-- cli/mod.rs: `parse_port_range` (`contains('-')` and `split('-')` act on
the character data). -/
def parse_port_range (range : String) : Except String (List Nat) :=
  if range.data.contains '-' then
    let parts := range.data.splitOn '-'
    if parts.length ≠ 2 then .error "Invalid port range format"
    else
      match parseU16 ⟨parts.getD 0 []⟩, parseU16 ⟨parts.getD 1 []⟩ with
      | .ok s, .ok e =>
        if s > e then .error "Invalid port range: start > end"
        else .ok (List.range' s (e + 1 - s))
      | .error msg, _ => .error msg
      | .ok _, .error msg => .error msg
  else
    match parseU16 range with
    | .ok p => .ok [p]
    | .error msg => .error msg

/-- modules/tcping.rs: `scan_ports` over the open-port oracle — one
`check_port` per requested port, in input order. -/
def scan_ports (openPorts : Nat → Bool) (ports : List Nat) : List (Nat × Bool) :=
  ports.map (fun p => (p, openPorts p))

/-- cli/mod.rs: `handle_port_scan` — parse first, scan only on success.
The second component counts the connection attempts performed. -/
def handle_port_scan (range : String) (openPorts : Nat → Bool) :
    Except String (List (Nat × Bool)) × Nat :=
  match parse_port_range range with
  | .error e => (.error e, 0)
  | .ok ports => (.ok (scan_ports openPorts ports), ports.length)

/-! ## websocket/mod.rs: the session multiplexer channel structure -/

/-- websocket/mod.rs: `WebSocketHandler`, reduced to the identity of the
broadcast channel its `tx` belongs to.  `broadcast::channel(100)` runs once,
inside `WebSocketHandler::new`; cloning the handler clones the sender of the
same channel. -/
structure WebSocketHandler where
  tx : Nat
  deriving DecidableEq, Repr

/-- websocket/mod.rs: `WebSocketHandler::new` — allocate one broadcast
channel (`freshChannel` is the identity the allocator hands out). -/
def WebSocketHandler.new (freshChannel : Nat) : WebSocketHandler :=
  { tx := freshChannel }

/-- One live connection: its id and the channel its outbound pump reads,
namely `handler.tx.subscribe()`. -/
structure WsSession where
  sid : Nat
  rx : Nat
  deriving DecidableEq, Repr

/-- websocket/mod.rs: `handle_websocket` — the new connection subscribes to
the channel of the handler it was given. -/
def handle_websocket (handler : WebSocketHandler) (sid : Nat) : WsSession :=
  { sid := sid, rx := handler.tx }

/-- The channel on which the inbound pump publishes the response to a
request, whoever sent it: `handler.tx.send(response_text)`. -/
def responseChannel (handler : WebSocketHandler) (_requester : WsSession) : Nat :=
  handler.tx

/-- Broadcast delivery: a message published on channel `c` reaches the
outbound pump of every session subscribed to `c`. -/
def deliveredTo (sessions : List WsSession) (c : Nat) : List Nat :=
  (sessions.filter (fun s => s.rx == c)).map (fun s => s.sid)

/-- Number of failed (non-success) attempts among the first `n`. -/
def failedCount (outcomes : Nat → AttemptOutcome) (n : Nat) : Nat :=
  ((List.range n).map outcomes).countP (fun a => !a.isSuccess)

/-- Whether a ping-loop event is an echo request. -/
def PingEvent.isSend : PingEvent → Bool
  | .send _ _ => true
  | .sleep _ => false

/-- Whether a ping-loop event is an inter-attempt sleep. -/
def PingEvent.isSleep : PingEvent → Bool
  | .send _ _ => false
  | .sleep _ => true

/-- Whether a tcping-loop event is a connection attempt. -/
def TcpEvent.isConnect : TcpEvent → Bool
  | .connect _ => true
  | .sleep _ => false

/-- Whether a tcping-loop event is an inter-attempt sleep. -/
def TcpEvent.isSleep : TcpEvent → Bool
  | .connect _ => false
  | .sleep _ => true

/-! ## Loop characterizations -/

theorem successRtts_zero (o : Nat → AttemptOutcome) : successRtts o 0 = [] := by
  simp [successRtts]

theorem successRtts_succ (o : Nat → AttemptOutcome) (n : Nat) :
    successRtts o (n + 1) = successRtts o n ++ (o n).rtt.toList := by
  simp only [successRtts, List.range_succ, List.map_append, List.filterMap_append,
    List.map_cons, List.map_nil, List.filterMap_cons, List.filterMap_nil]
  cases o n <;> simp [AttemptOutcome.rtt]

theorem successRtts_length_le (o : Nat → AttemptOutcome) (n : Nat) :
    (successRtts o n).length ≤ n := by
  calc (successRtts o n).length ≤ ((List.range n).map o).length :=
        List.length_filterMap_le _ _
    _ = n := by simp

theorem successRtts_eq_nil (o : Nat → AttemptOutcome) (n : Nat)
    (h : ∀ i < n, (o i).isSuccess = false) : successRtts o n = [] := by
  induction n with
  | zero => simp [successRtts]
  | succ n ih =>
    rw [successRtts_succ, ih (fun i hi => h i (Nat.lt_succ_of_lt hi))]
    have hn := h n (Nat.lt_succ_self n)
    cases hon : o n <;> simp_all [AttemptOutcome.isSuccess, AttemptOutcome.rtt]

theorem pingLoop_eq (o : Nat → AttemptOutcome) (n : Nat) :
    pingLoop o n = (n, (successRtts o n).length, successRtts o n) := by
  induction n with
  | zero => simp [pingLoop, successRtts]
  | succ n ih =>
    have hstep : pingLoop o (n + 1) = pingStep (pingLoop o n) (o n) := by
      simp [pingLoop, List.range_succ]
    rw [hstep, ih, successRtts_succ]
    cases o n <;> simp [pingStep, AttemptOutcome.rtt]

theorem tcpingLoop_eq (o : Nat → AttemptOutcome) (n : Nat) :
    tcpingLoop o n = (successRtts o n, (successRtts o n).length) := by
  induction n with
  | zero => simp [tcpingLoop, successRtts]
  | succ n ih =>
    have hstep : tcpingLoop o (n + 1) = tcpingStep (tcpingLoop o n) (o n) := by
      simp [tcpingLoop, List.range_succ]
    rw [hstep, ih, successRtts_succ]
    cases o n <;> simp [tcpingStep, AttemptOutcome.rtt]

/-! ## Fold bounds for the latency statistics -/

theorem foldlMin_acc (l : List ℚ) (a : WithTop ℚ) :
    l.foldl (fun (x : WithTop ℚ) (b : ℚ) => min x (b : WithTop ℚ)) a = min a (foldMinRtt l) := by
  induction l generalizing a with
  | nil => simp [foldMinRtt]
  | cons b l ih =>
    have hb : foldMinRtt (b :: l) = min (b : WithTop ℚ) (foldMinRtt l) := by
      show (b :: l).foldl (fun (x : WithTop ℚ) (c : ℚ) => min x (c : WithTop ℚ)) ⊤ = _
      rw [List.foldl_cons, ih (min ⊤ (b : WithTop ℚ)), min_eq_right le_top]
    rw [List.foldl_cons, ih (min a ↑b), hb, min_assoc]

theorem foldlMax_acc (l : List ℚ) (a : WithBot ℚ) :
    l.foldl (fun (x : WithBot ℚ) (b : ℚ) => max x (b : WithBot ℚ)) a = max a (foldMaxRtt l) := by
  induction l generalizing a with
  | nil => simp [foldMaxRtt]
  | cons b l ih =>
    have hb : foldMaxRtt (b :: l) = max (b : WithBot ℚ) (foldMaxRtt l) := by
      show (b :: l).foldl (fun (x : WithBot ℚ) (c : ℚ) => max x (c : WithBot ℚ)) ⊥ = _
      rw [List.foldl_cons, ih (max ⊥ (b : WithBot ℚ)), max_eq_right bot_le]
    rw [List.foldl_cons, ih (max a ↑b), hb, max_assoc]

theorem foldMinRtt_cons (b : ℚ) (l : List ℚ) :
    foldMinRtt (b :: l) = min (b : WithTop ℚ) (foldMinRtt l) := by
  show (b :: l).foldl (fun (x : WithTop ℚ) (c : ℚ) => min x (c : WithTop ℚ)) ⊤ = _
  rw [List.foldl_cons, foldlMin_acc l (min ⊤ (b : WithTop ℚ)), min_eq_right le_top]

theorem foldMaxRtt_cons (b : ℚ) (l : List ℚ) :
    foldMaxRtt (b :: l) = max (b : WithBot ℚ) (foldMaxRtt l) := by
  show (b :: l).foldl (fun (x : WithBot ℚ) (c : ℚ) => max x (c : WithBot ℚ)) ⊥ = _
  rw [List.foldl_cons, foldlMax_acc l (max ⊥ (b : WithBot ℚ)), max_eq_right bot_le]

theorem foldMinRtt_le_mem {l : List ℚ} {x : ℚ} (hx : x ∈ l) :
    foldMinRtt l ≤ (x : WithTop ℚ) := by
  induction l with
  | nil => cases hx
  | cons b l ih =>
    rw [foldMinRtt_cons]
    rcases List.mem_cons.mp hx with h | h
    · subst h; exact min_le_left _ _
    · exact le_trans (min_le_right _ _) (ih h)

theorem le_foldMaxRtt_mem {l : List ℚ} {x : ℚ} (hx : x ∈ l) :
    (x : WithBot ℚ) ≤ foldMaxRtt l := by
  induction l with
  | nil => cases hx
  | cons b l ih =>
    rw [foldMaxRtt_cons]
    rcases List.mem_cons.mp hx with h | h
    · subst h; exact le_max_left _ _
    · exact le_trans (ih h) (le_max_right _ _)

theorem exists_mem_le_avg (l : List ℚ) (hl : l ≠ []) :
    ∃ x ∈ l, x ≤ l.sum / (l.length : ℚ) := by
  obtain ⟨m, hm⟩ := WithTop.ne_top_iff_exists.mp
    (fun h => hl (List.minimum_eq_top.mp h))
  have hmem : m ∈ l := List.minimum_mem hm.symm
  refine ⟨m, hmem, ?_⟩
  have hlen : (0 : ℚ) < (l.length : ℚ) := by
    have : 0 < l.length := List.length_pos.mpr hl
    exact_mod_cast this
  rw [le_div_iff₀ hlen]
  have hle : ∀ x ∈ l, m ≤ x := fun x hx =>
    WithTop.coe_le_coe.mp (hm ▸ List.minimum_le_of_mem' hx)
  have := List.card_nsmul_le_sum l m hle
  rw [nsmul_eq_mul] at this
  linarith [this]

theorem exists_avg_le_mem (l : List ℚ) (hl : l ≠ []) :
    ∃ x ∈ l, l.sum / (l.length : ℚ) ≤ x := by
  obtain ⟨m, hm⟩ := WithBot.ne_bot_iff_exists.mp
    (fun h => hl (List.maximum_eq_bot.mp h))
  have hmem : m ∈ l := List.maximum_mem hm.symm
  refine ⟨m, hmem, ?_⟩
  have hlen : (0 : ℚ) < (l.length : ℚ) := by
    have : 0 < l.length := List.length_pos.mpr hl
    exact_mod_cast this
  rw [div_le_iff₀ hlen]
  have hle : ∀ x ∈ l, x ≤ m := fun x hx =>
    WithBot.coe_le_coe.mp (hm ▸ List.le_maximum_of_mem' hx)
  have := List.sum_le_card_nsmul l m hle
  rw [nsmul_eq_mul] at this
  linarith [this]

theorem ping_ok_inv (config : PingConfig) (net : PingNet) (r : PingResult)
    (h : PingService.ping config net = .ok r) :
    successRtts net.outcomes config.count ≠ [] ∧
    r.packets_sent = config.count ∧
    r.packets_received = (successRtts net.outcomes config.count).length ∧
    r.packet_loss =
      ((config.count - (successRtts net.outcomes config.count).length : Nat) : ℚ) /
        (config.count : ℚ) * 100 ∧
    r.min_rtt = foldMinRtt (successRtts net.outcomes config.count) ∧
    r.max_rtt = foldMaxRtt (successRtts net.outcomes config.count) ∧
    r.avg_rtt = (successRtts net.outcomes config.count).sum /
      ((successRtts net.outcomes config.count).length : ℚ) := by
  simp only [PingService.ping, pingLoop_eq] at h
  split at h
  · simp at h
  · split at h
    · simp at h
    · split at h
      · simp at h
      · rw [Except.ok.injEq] at h
        subst h
        refine ⟨?_, rfl, rfl, rfl, rfl, rfl, rfl⟩
        intro hc
        simp_all

theorem tcping_ok_inv (config : TcpingConfig) (net : TcpingNet) (r : TcpingResult)
    (h : TcpingService.tcping config net = .ok r) :
    successRtts net.outcomes config.count ≠ [] ∧
    r.attempts = config.count ∧
    r.successful_attempts = (successRtts net.outcomes config.count).length ∧
    r.packet_loss =
      ((config.count - (successRtts net.outcomes config.count).length : Nat) : ℚ) /
        (config.count : ℚ) * 100 ∧
    r.min_rtt = foldMinRtt (successRtts net.outcomes config.count) ∧
    r.max_rtt = foldMaxRtt (successRtts net.outcomes config.count) ∧
    r.avg_rtt = (successRtts net.outcomes config.count).sum /
      ((successRtts net.outcomes config.count).length : ℚ) := by
  simp only [TcpingService.tcping, tcpingLoop_eq] at h
  split at h
  · simp at h
  · split at h
    · simp at h
    · rw [Except.ok.injEq] at h
      subst h
      refine ⟨?_, rfl, rfl, rfl, rfl, rfl, rfl⟩
      intro hc
      simp_all

theorem foldMinRtt_le_avg (l : List ℚ) (hl : l ≠ []) :
    foldMinRtt l ≤ ((l.sum / (l.length : ℚ) : ℚ) : WithTop ℚ) := by
  obtain ⟨x, hx, hxle⟩ := exists_mem_le_avg l hl
  exact le_trans (foldMinRtt_le_mem hx) (WithTop.coe_le_coe.mpr hxle)

theorem avg_le_foldMaxRtt (l : List ℚ) (hl : l ≠ []) :
    ((l.sum / (l.length : ℚ) : ℚ) : WithBot ℚ) ≤ foldMaxRtt l := by
  obtain ⟨x, hx, hxle⟩ := exists_avg_le_mem l hl
  exact le_trans (WithBot.coe_le_coe.mpr hxle) (le_foldMaxRtt_mem hx)

theorem successRtts_length_add_failedCount (o : Nat → AttemptOutcome) (n : Nat) :
    (successRtts o n).length + failedCount o n = n := by
  induction n with
  | zero => simp [successRtts, failedCount]
  | succ n ih =>
    have hf : failedCount o (n + 1) =
        failedCount o n + (if (o n).isSuccess then 0 else 1) := by
      unfold failedCount
      rw [List.range_succ, List.map_append, List.countP_append]
      cases h : o n <;> simp [h, AttemptOutcome.isSuccess]
    rw [successRtts_succ, hf, List.length_append]
    cases h : o n <;> simp [h, AttemptOutcome.rtt, AttemptOutcome.isSuccess] <;> omega

theorem loss_bounds (sent recv : Nat) (hle : recv ≤ sent) (hpos : 0 < sent) :
    0 ≤ ((sent - recv : Nat) : ℚ) / (sent : ℚ) * 100 ∧
    ((sent - recv : Nat) : ℚ) / (sent : ℚ) * 100 ≤ 100 := by
  have hs : (0 : ℚ) < (sent : ℚ) := by exact_mod_cast hpos
  constructor
  · positivity
  · have h1 : ((sent - recv : Nat) : ℚ) ≤ (sent : ℚ) := by
      exact_mod_cast Nat.sub_le sent recv
    have h2 : ((sent - recv : Nat) : ℚ) / (sent : ℚ) ≤ 1 := (div_le_one hs).mpr h1
    nlinarith

theorem ping_eval_single (host a ip : String) (tmo ps : Nat) (r : ℚ) :
    PingService.ping { host := host, count := 1, timeout := tmo, packet_size := ps }
        { resolveAddr := some a, outcomes := fun _ => AttemptOutcome.success r,
          resolveIp := some ip } =
      .ok { host := host, ip := ip, packet_loss := 0,
            min_rtt := ((r : ℚ) : WithTop ℚ), max_rtt := ((r : ℚ) : WithBot ℚ),
            avg_rtt := r, packets_sent := 1, packets_received := 1 } := by
  have hs : successRtts (fun _ => AttemptOutcome.success r) 1 = [r] := by
    simp [successRtts, List.range_succ, AttemptOutcome.rtt]
  simp [PingService.ping, pingLoop_eq, hs, foldMinRtt_cons, foldMaxRtt_cons,
    foldMinRtt, foldMaxRtt, min_eq_left, max_eq_left]

theorem tcping_eval_single (host ip : String) (port tmo d : Nat) (r : ℚ) :
    TcpingService.tcping { host := host, port := port, count := 1, timeout := tmo, delay := d }
        { outcomes := fun _ => AttemptOutcome.success r, resolveIp := some ip } =
      .ok { host := host, port := port, ip := ip, success := true,
            avg_rtt := r, min_rtt := ((r : ℚ) : WithTop ℚ),
            max_rtt := ((r : ℚ) : WithBot ℚ),
            attempts := 1, successful_attempts := 1, packet_loss := 0 } := by
  have hs : successRtts (fun _ => AttemptOutcome.success r) 1 = [r] := by
    simp [successRtts, List.range_succ, AttemptOutcome.rtt]
  simp [TcpingService.tcping, tcpingLoop_eq, hs, foldMinRtt_cons, foldMaxRtt_cons,
    foldMinRtt, foldMaxRtt, min_eq_left, max_eq_left]

/-! ## Claim C1 -/

/-- C1: a Ping or TCP run that resolves and sends `count > 0` attempts, all
of which fail, returns the all-attempts-failed error variant of its service
(`Ping`/`Tcp`), never a success result. -/
theorem all_failed_runs_return_error
    (pc : PingConfig) (pnet : PingNet) (a : String)
    (tc : TcpingConfig) (tnet : TcpingNet)
    (hres : pnet.resolveAddr = some a)
    (hpc : 0 < pc.count)
    (hpfail : ∀ i, i < pc.count → (pnet.outcomes i).isSuccess = false)
    (htc : 0 < tc.count)
    (htfail : ∀ i, i < tc.count → (tnet.outcomes i).isSuccess = false) :
    PingService.ping pc pnet =
      .error (.Ping ("All packets lost for " ++ pc.host)) ∧
    TcpingService.tcping tc tnet =
      .error (.Tcp ("All connections to " ++ (tc.host ++ ":" ++ toString tc.port) ++ " failed")) := by
  have h1 : successRtts pnet.outcomes pc.count = [] :=
    successRtts_eq_nil _ _ hpfail
  have h2 : successRtts tnet.outcomes tc.count = [] :=
    successRtts_eq_nil _ _ htfail
  constructor
  · simp [PingService.ping, pingLoop_eq, hres, h1]
  · simp [TcpingService.tcping, tcpingLoop_eq, h2]

theorem all_failed_runs_return_error_witness :
    PingService.ping { host := "example.com", count := 1, timeout := 2000, packet_size := 56 }
        { resolveAddr := some "93.184.216.34",
          outcomes := fun _ => AttemptOutcome.failure,
          resolveIp := some "93.184.216.34:0" } =
      .error (.Ping ("All packets lost for " ++ "example.com")) ∧
    TcpingService.tcping { host := "example.com", port := 80, count := 1, timeout := 3000, delay := 100 }
        { outcomes := fun _ => AttemptOutcome.failure,
          resolveIp := some "93.184.216.34:80" } =
      .error (.Tcp ("All connections to " ++ ("example.com" ++ ":" ++ toString 80) ++ " failed")) :=
  all_failed_runs_return_error _ _ "93.184.216.34" _ _ rfl (by decide)
    (fun _ _ => rfl) (by decide) (fun _ _ => rfl)

/-! ## Claim C3 -/

/-- C3: every completed Ping/TCP run reports `sent ≥ succeeded ≥ 0`, a loss
percentage equal to `(sent − succeeded)/sent · 100` with `sent > 0`, hence
`0 ≤ loss ≤ 100`, and `sent = succeeded + failed`. -/
theorem completed_run_stats_invariants
    (pc : PingConfig) (pnet : PingNet) (pr : PingResult)
    (tc : TcpingConfig) (tnet : TcpingNet) (tr : TcpingResult)
    (hp : PingService.ping pc pnet = .ok pr)
    (ht : TcpingService.tcping tc tnet = .ok tr) :
    (0 ≤ pr.packets_received ∧ pr.packets_received ≤ pr.packets_sent ∧
     0 < pr.packets_sent ∧
     pr.packet_loss =
       ((pr.packets_sent : ℚ) - (pr.packets_received : ℚ)) / (pr.packets_sent : ℚ) * 100 ∧
     0 ≤ pr.packet_loss ∧ pr.packet_loss ≤ 100 ∧
     pr.packets_sent = pr.packets_received + failedCount pnet.outcomes pc.count) ∧
    (0 ≤ tr.successful_attempts ∧ tr.successful_attempts ≤ tr.attempts ∧
     0 < tr.attempts ∧
     tr.packet_loss =
       ((tr.attempts : ℚ) - (tr.successful_attempts : ℚ)) / (tr.attempts : ℚ) * 100 ∧
     0 ≤ tr.packet_loss ∧ tr.packet_loss ≤ 100 ∧
     tr.attempts = tr.successful_attempts + failedCount tnet.outcomes tc.count) := by
  obtain ⟨hne, hs, hr, hl, -, -, -⟩ := ping_ok_inv pc pnet pr hp
  obtain ⟨hne', hs', hr', hl', -, -, -⟩ := tcping_ok_inv tc tnet tr ht
  have hlep : (successRtts pnet.outcomes pc.count).length ≤ pc.count :=
    successRtts_length_le _ _
  have hlet : (successRtts tnet.outcomes tc.count).length ≤ tc.count :=
    successRtts_length_le _ _
  have hposp : 0 < pc.count := by
    have := List.length_pos.mpr hne
    omega
  have hpost : 0 < tc.count := by
    have := List.length_pos.mpr hne'
    omega
  have hcastp : ((pc.count - (successRtts pnet.outcomes pc.count).length : Nat) : ℚ) =
      (pc.count : ℚ) - ((successRtts pnet.outcomes pc.count).length : ℚ) :=
    Nat.cast_sub hlep
  have hcastt : ((tc.count - (successRtts tnet.outcomes tc.count).length : Nat) : ℚ) =
      (tc.count : ℚ) - ((successRtts tnet.outcomes tc.count).length : ℚ) :=
    Nat.cast_sub hlet
  obtain ⟨hb1, hb2⟩ := loss_bounds pc.count (successRtts pnet.outcomes pc.count).length hlep hposp
  obtain ⟨hb1', hb2'⟩ := loss_bounds tc.count (successRtts tnet.outcomes tc.count).length hlet hpost
  have hsump := successRtts_length_add_failedCount pnet.outcomes pc.count
  have hsumt := successRtts_length_add_failedCount tnet.outcomes tc.count
  refine ⟨⟨Nat.zero_le _, ?_, ?_, ?_, ?_, ?_, ?_⟩, ⟨Nat.zero_le _, ?_, ?_, ?_, ?_, ?_, ?_⟩⟩
  · rw [hr, hs]; exact hlep
  · rw [hs]; exact hposp
  · rw [hl, hr, hs, hcastp]
  · rw [hl]; exact hb1
  · rw [hl]; exact hb2
  · rw [hs, hr]; omega
  · rw [hr', hs']; exact hlet
  · rw [hs']; exact hpost
  · rw [hl', hr', hs', hcastt]
  · rw [hl']; exact hb1'
  · rw [hl']; exact hb2'
  · rw [hs', hr']; omega

theorem completed_run_stats_invariants_witness :
    (0 ≤ (1 : Nat) ∧ 1 ≤ 1 ∧ 0 < 1 ∧
     (0 : ℚ) = ((1 : ℚ) - (1 : ℚ)) / (1 : ℚ) * 100 ∧
     (0 : ℚ) ≤ 0 ∧ (0 : ℚ) ≤ 100 ∧
     1 = 1 + failedCount (fun _ => AttemptOutcome.success 5) 1) ∧
    (0 ≤ (1 : Nat) ∧ 1 ≤ 1 ∧ 0 < 1 ∧
     (0 : ℚ) = ((1 : ℚ) - (1 : ℚ)) / (1 : ℚ) * 100 ∧
     (0 : ℚ) ≤ 0 ∧ (0 : ℚ) ≤ 100 ∧
     1 = 1 + failedCount (fun _ => AttemptOutcome.success 7) 1) :=
  completed_run_stats_invariants
    { host := "example.com", count := 1, timeout := 2000, packet_size := 56 }
    { resolveAddr := some "93.184.216.34",
      outcomes := fun _ => AttemptOutcome.success 5,
      resolveIp := some "93.184.216.34:0" }
    { host := "example.com", ip := "93.184.216.34:0", packet_loss := 0,
      min_rtt := ((5 : ℚ) : WithTop ℚ), max_rtt := ((5 : ℚ) : WithBot ℚ),
      avg_rtt := 5, packets_sent := 1, packets_received := 1 }
    { host := "example.com", port := 80, count := 1, timeout := 3000, delay := 100 }
    { outcomes := fun _ => AttemptOutcome.success 7,
      resolveIp := some "93.184.216.34:80" }
    { host := "example.com", port := 80, ip := "93.184.216.34:80", success := true,
      avg_rtt := 7, min_rtt := ((7 : ℚ) : WithTop ℚ), max_rtt := ((7 : ℚ) : WithBot ℚ),
      attempts := 1, successful_attempts := 1, packet_loss := 0 }
    (ping_eval_single "example.com" "93.184.216.34" "93.184.216.34:0" 2000 56 5)
    (tcping_eval_single "example.com" "93.184.216.34:80" 80 3000 100 7)

/-! ## Claim C9 -/

/-- C9: every completed Ping/TCP run with at least one success reports
latency statistics over the successful attempts with `min ≤ avg ≤ max`,
where `avg` is the arithmetic mean. -/
theorem completed_run_min_avg_max
    (pc : PingConfig) (pnet : PingNet) (pr : PingResult)
    (tc : TcpingConfig) (tnet : TcpingNet) (tr : TcpingResult)
    (hp : PingService.ping pc pnet = .ok pr)
    (ht : TcpingService.tcping tc tnet = .ok tr) :
    (pr.min_rtt ≤ ((pr.avg_rtt : ℚ) : WithTop ℚ) ∧
     ((pr.avg_rtt : ℚ) : WithBot ℚ) ≤ pr.max_rtt ∧
     pr.avg_rtt = (successRtts pnet.outcomes pc.count).sum /
       ((successRtts pnet.outcomes pc.count).length : ℚ)) ∧
    (tr.min_rtt ≤ ((tr.avg_rtt : ℚ) : WithTop ℚ) ∧
     ((tr.avg_rtt : ℚ) : WithBot ℚ) ≤ tr.max_rtt ∧
     tr.avg_rtt = (successRtts tnet.outcomes tc.count).sum /
       ((successRtts tnet.outcomes tc.count).length : ℚ)) := by
  obtain ⟨hne, -, -, -, hmin, hmax, havg⟩ := ping_ok_inv pc pnet pr hp
  obtain ⟨hne', -, -, -, hmin', hmax', havg'⟩ := tcping_ok_inv tc tnet tr ht
  refine ⟨⟨?_, ?_, havg⟩, ⟨?_, ?_, havg'⟩⟩
  · rw [hmin, havg]; exact foldMinRtt_le_avg _ hne
  · rw [hmax, havg]; exact avg_le_foldMaxRtt _ hne
  · rw [hmin', havg']; exact foldMinRtt_le_avg _ hne'
  · rw [hmax', havg']; exact avg_le_foldMaxRtt _ hne'

theorem completed_run_min_avg_max_witness :
    ((((5 : ℚ) : WithTop ℚ) ≤ ((5 : ℚ) : WithTop ℚ) ∧
      ((5 : ℚ) : WithBot ℚ) ≤ ((5 : ℚ) : WithBot ℚ) ∧
      (5 : ℚ) = (successRtts (fun _ => AttemptOutcome.success 5) 1).sum /
        ((successRtts (fun _ => AttemptOutcome.success 5) 1).length : ℚ)) ∧
     (((7 : ℚ) : WithTop ℚ) ≤ ((7 : ℚ) : WithTop ℚ) ∧
      ((7 : ℚ) : WithBot ℚ) ≤ ((7 : ℚ) : WithBot ℚ) ∧
      (7 : ℚ) = (successRtts (fun _ => AttemptOutcome.success 7) 1).sum /
        ((successRtts (fun _ => AttemptOutcome.success 7) 1).length : ℚ))) :=
  completed_run_min_avg_max
    { host := "example.com", count := 1, timeout := 2000, packet_size := 56 }
    { resolveAddr := some "93.184.216.34",
      outcomes := fun _ => AttemptOutcome.success 5,
      resolveIp := some "93.184.216.34:0" }
    { host := "example.com", ip := "93.184.216.34:0", packet_loss := 0,
      min_rtt := ((5 : ℚ) : WithTop ℚ), max_rtt := ((5 : ℚ) : WithBot ℚ),
      avg_rtt := 5, packets_sent := 1, packets_received := 1 }
    { host := "example.com", port := 80, count := 1, timeout := 3000, delay := 100 }
    { outcomes := fun _ => AttemptOutcome.success 7,
      resolveIp := some "93.184.216.34:80" }
    { host := "example.com", port := 80, ip := "93.184.216.34:80", success := true,
      avg_rtt := 7, min_rtt := ((7 : ℚ) : WithTop ℚ), max_rtt := ((7 : ℚ) : WithBot ℚ),
      attempts := 1, successful_attempts := 1, packet_loss := 0 }
    (ping_eval_single "example.com" "93.184.216.34" "93.184.216.34:0" 2000 56 5)
    (tcping_eval_single "example.com" "93.184.216.34:80" 80 3000 100 7)

/-! ## Claim C4 -/

theorem ping_flatMap_countP_send (n : Nat) :
    (((List.range n).flatMap pingAttemptEvents).countP PingEvent.isSend) = n := by
  induction n with
  | zero => simp
  | succ n ih =>
    rw [List.range_succ, List.flatMap_append, List.countP_append, ih]
    simp [pingAttemptEvents, List.countP_cons, PingEvent.isSend]

theorem ping_flatMap_countP_sleep (n : Nat) :
    (((List.range n).flatMap pingAttemptEvents).countP PingEvent.isSleep) = n := by
  induction n with
  | zero => simp
  | succ n ih =>
    rw [List.range_succ, List.flatMap_append, List.countP_append, ih]
    simp [pingAttemptEvents, List.countP_cons, PingEvent.isSleep]

theorem tcp_flatMap_countP_connect (l : List Nat) (k d : Nat) :
    ((l.flatMap (fun i => TcpEvent.connect i ::
        (if i < k then [TcpEvent.sleep d] else []))).countP TcpEvent.isConnect) =
      l.length := by
  induction l with
  | nil => simp
  | cons i l ih =>
    rw [List.flatMap_cons, List.countP_append, ih]
    by_cases h : i < k <;> simp [h, List.countP_cons, TcpEvent.isConnect] <;> omega

theorem tcp_flatMap_countP_sleep (l : List Nat) (k d : Nat) :
    ((l.flatMap (fun i => TcpEvent.connect i ::
        (if i < k then [TcpEvent.sleep d] else []))).countP TcpEvent.isSleep) =
      (l.filter (fun i => i < k)).length := by
  induction l with
  | nil => simp
  | cons i l ih =>
    rw [List.flatMap_cons, List.countP_append, ih, List.filter_cons]
    by_cases h : i < k <;> simp [h, List.countP_cons, TcpEvent.isSleep] <;> omega

theorem length_filter_range_lt (n k : Nat) :
    (((List.range n).filter (fun i => i < k)).length) = min k n := by
  induction n with
  | zero => simp
  | succ n ih =>
    rw [List.range_succ, List.filter_append, List.length_append, ih]
    by_cases h : n < k <;> simp [h] <;> omega

/-- C4 fails on the Ping prober: a single-attempt run still sleeps the fixed
100 ms after its final (only) attempt — the event trace ends with a sleep. -/
theorem ping_sleeps_after_final_attempt :
    pingTrace { host := "example.com", count := 1, timeout := 2000, packet_size := 56 }
        { resolveAddr := some "93.184.216.34",
          outcomes := fun _ => AttemptOutcome.success 1,
          resolveIp := some "93.184.216.34:0" } =
      [PingEvent.send 0 (List.replicate 56 0), PingEvent.sleep 100] ∧
    (pingTrace { host := "example.com", count := 1, timeout := 2000, packet_size := 56 }
        { resolveAddr := some "93.184.216.34",
          outcomes := fun _ => AttemptOutcome.success 1,
          resolveIp := some "93.184.216.34:0" }).getLast? =
      some (PingEvent.sleep 100) := by
  constructor <;> rfl

/-- C4 amended: both probers loop exactly `count` times.  The TCP prober
sleeps its configured delay only between consecutive attempts and never
after the final one, while the Ping prober sleeps the fixed 100 ms delay
after every attempt, including the final one. -/
theorem loop_and_delay_structure
    (pc : PingConfig) (pnet : PingNet) (a : String) (tc : TcpingConfig)
    (hres : pnet.resolveAddr = some a) :
    (pingTrace pc pnet).countP PingEvent.isSend = pc.count ∧
    (pingTrace pc pnet).countP PingEvent.isSleep = pc.count ∧
    (0 < pc.count → (pingTrace pc pnet).getLast? = some (PingEvent.sleep 100)) ∧
    (tcpingTrace tc).countP TcpEvent.isConnect = tc.count ∧
    (tcpingTrace tc).countP TcpEvent.isSleep = tc.count - 1 ∧
    (0 < tc.count → (tcpingTrace tc).getLast? = some (TcpEvent.connect (tc.count - 1))) := by
  have htr : pingTrace pc pnet = (List.range pc.count).flatMap pingAttemptEvents := by
    simp [pingTrace, hres]
  refine ⟨?_, ?_, ?_, ?_, ?_, ?_⟩
  · rw [htr]; exact ping_flatMap_countP_send pc.count
  · rw [htr]; exact ping_flatMap_countP_sleep pc.count
  · intro hpos
    obtain ⟨m, hm⟩ : ∃ m, pc.count = m + 1 := ⟨pc.count - 1, by omega⟩
    rw [htr, hm, List.range_succ, List.flatMap_append]
    simp [pingAttemptEvents]
  · rw [tcpingTrace]
    simpa using tcp_flatMap_countP_connect (List.range tc.count) (tc.count - 1) tc.delay
  · rw [tcpingTrace, tcp_flatMap_countP_sleep, length_filter_range_lt]
    omega
  · intro hpos
    obtain ⟨m, hm⟩ : ∃ m, tc.count = m + 1 := ⟨tc.count - 1, by omega⟩
    rw [tcpingTrace, hm, List.range_succ, List.flatMap_append]
    have hlast : (m + 1 - 1 : Nat) = m := by omega
    simp [hlast, List.getLast?_concat]

theorem loop_and_delay_structure_witness :
    (pingTrace { host := "example.com", count := 2, timeout := 2000, packet_size := 56 }
        { resolveAddr := some "93.184.216.34",
          outcomes := fun _ => AttemptOutcome.success 1,
          resolveIp := some "93.184.216.34:0" }).countP PingEvent.isSend = 2 ∧
    (tcpingTrace { host := "example.com", port := 80, count := 2, timeout := 3000, delay := 100 }).countP
        TcpEvent.isSleep = 2 - 1 ∧
    (tcpingTrace { host := "example.com", port := 80, count := 2, timeout := 3000, delay := 100 }).getLast? =
      some (TcpEvent.connect (2 - 1)) := by
  have h := loop_and_delay_structure
    { host := "example.com", count := 2, timeout := 2000, packet_size := 56 }
    { resolveAddr := some "93.184.216.34",
      outcomes := fun _ => AttemptOutcome.success 1,
      resolveIp := some "93.184.216.34:0" }
    "93.184.216.34"
    { host := "example.com", port := 80, count := 2, timeout := 3000, delay := 100 }
    rfl
  exact ⟨h.1, h.2.2.2.2.1, h.2.2.2.2.2 (by decide)⟩

/-! ## Claim C10 -/

/-- C10: `PingService::ping` never reads `packet_size` — two configs equal
except for `packet_size` produce the identical result and event trace; the
echo payload of every send event is the fixed 56-byte zero buffer and every
sleep is the fixed 100 ms. -/
theorem ping_ignores_packet_size
    (c1 c2 : PingConfig) (net : PingNet)
    (hh : c1.host = c2.host) (hc : c1.count = c2.count) (ht : c1.timeout = c2.timeout) :
    PingService.ping c1 net = PingService.ping c2 net ∧
    pingTrace c1 net = pingTrace c2 net ∧
    (∀ e ∈ pingTrace c1 net,
      (∀ i p, e = PingEvent.send i p → p = List.replicate 56 0) ∧
      (∀ ms, e = PingEvent.sleep ms → ms = 100)) := by
  obtain ⟨h1, n1, t1, p1⟩ := c1
  obtain ⟨h2, n2, t2, p2⟩ := c2
  simp only [PingConfig.host, PingConfig.count, PingConfig.timeout] at hh hc ht
  subst hh; subst hc; subst ht
  refine ⟨rfl, rfl, ?_⟩
  intro e he
  cases hres : net.resolveAddr with
  | none => simp [pingTrace, hres] at he
  | some a =>
    simp only [pingTrace, hres, List.mem_flatMap, pingAttemptEvents,
      List.mem_cons, List.mem_singleton, List.not_mem_nil, or_false] at he
    obtain ⟨i, -, he⟩ := he
    rcases he with rfl | rfl
    · constructor
      · intro j p hp
        cases hp
        rfl
      · intro ms hms
        cases hms
    · constructor
      · intro j p hp
        cases hp
      · intro ms hms
        cases hms
        rfl

theorem ping_ignores_packet_size_witness :
    PingService.ping { host := "example.com", count := 2, timeout := 2000, packet_size := 56 }
        { resolveAddr := some "93.184.216.34",
          outcomes := fun _ => AttemptOutcome.success 1,
          resolveIp := some "93.184.216.34:0" } =
      PingService.ping { host := "example.com", count := 2, timeout := 2000, packet_size := 1024 }
        { resolveAddr := some "93.184.216.34",
          outcomes := fun _ => AttemptOutcome.success 1,
          resolveIp := some "93.184.216.34:0" } ∧
    pingTrace { host := "example.com", count := 2, timeout := 2000, packet_size := 56 }
        { resolveAddr := some "93.184.216.34",
          outcomes := fun _ => AttemptOutcome.success 1,
          resolveIp := some "93.184.216.34:0" } =
      pingTrace { host := "example.com", count := 2, timeout := 2000, packet_size := 1024 }
        { resolveAddr := some "93.184.216.34",
          outcomes := fun _ => AttemptOutcome.success 1,
          resolveIp := some "93.184.216.34:0" } := by
  have h := ping_ignores_packet_size
    { host := "example.com", count := 2, timeout := 2000, packet_size := 56 }
    { host := "example.com", count := 2, timeout := 2000, packet_size := 1024 }
    { resolveAddr := some "93.184.216.34",
      outcomes := fun _ => AttemptOutcome.success 1,
      resolveIp := some "93.184.216.34:0" }
    rfl rfl rfl
  exact ⟨h.1, h.2.1⟩

/-! ## Claim C5 -/

theorem tracerouteWalk_succ (p : Nat → Option (String × ℚ)) (t : String) (ttl fuel : Nat) :
    tracerouteWalk p t ttl (fuel + 1) =
      probe_hop p ttl :: (if hopMatchesTarget (probe_hop p ttl) t then []
        else tracerouteWalk p t (ttl + 1) fuel) := rfl

theorem probe_hop_hop_number (p : Nat → Option (String × ℚ)) (k : Nat) :
    (probe_hop p k).hop_number = k := by
  cases h : p k <;> simp [probe_hop, h]

theorem probe_hop_success_iff (p : Nat → Option (String × ℚ)) (k : Nat) :
    (probe_hop p k).success = false ↔ p k = none := by
  cases h : p k <;> simp [probe_hop, h]

theorem probe_hop_of_none (p : Nat → Option (String × ℚ)) (k : Nat)
    (h : p k = none) :
    probe_hop p k =
      { hop_number := k, ip := none, hostname := none, rtt := none, success := false } := by
  simp [probe_hop, h]

theorem probe_hop_not_target_of_none (p : Nat → Option (String × ℚ)) (t : String)
    (k : Nat) (h : p k = none) :
    hopMatchesTarget (probe_hop p k) t = false := by
  simp [probe_hop, h, hopMatchesTarget]

theorem tracerouteWalk_length_le (p : Nat → Option (String × ℚ)) (t : String) :
    ∀ fuel ttl, (tracerouteWalk p t ttl fuel).length ≤ fuel := by
  intro fuel
  induction fuel with
  | zero => intro ttl; simp [tracerouteWalk]
  | succ fuel ih =>
    intro ttl
    rw [tracerouteWalk_succ]
    cases h : hopMatchesTarget (probe_hop p ttl) t with
    | true => simp
    | false =>
      simp only [Bool.false_eq_true, if_false, List.length_cons]
      exact Nat.succ_le_succ (ih (ttl + 1))

theorem tracerouteWalk_ne_nil (p : Nat → Option (String × ℚ)) (t : String)
    (ttl fuel : Nat) (h : 0 < fuel) : tracerouteWalk p t ttl fuel ≠ [] := by
  obtain ⟨m, rfl⟩ : ∃ m, fuel = m + 1 := ⟨fuel - 1, by omega⟩
  rw [tracerouteWalk_succ]
  exact List.cons_ne_nil _ _

theorem tracerouteWalk_get (p : Nat → Option (String × ℚ)) (t : String) :
    ∀ fuel ttl i hp, (tracerouteWalk p t ttl fuel)[i]? = some hp →
      hp = probe_hop p (ttl + i) := by
  intro fuel
  induction fuel with
  | zero => intro ttl i hp h; simp [tracerouteWalk] at h
  | succ fuel ih =>
    intro ttl i hp h
    rw [tracerouteWalk_succ] at h
    cases i with
    | zero =>
      rw [List.getElem?_cons_zero, Option.some.injEq] at h
      rw [Nat.add_zero]
      exact h.symm
    | succ i =>
      rw [List.getElem?_cons_succ] at h
      cases ht : hopMatchesTarget (probe_hop p ttl) t with
      | true => simp [ht] at h
      | false =>
        rw [ht] at h
        simp only [Bool.false_eq_true, if_false] at h
        have := ih (ttl + 1) i hp h
        rw [this]
        congr 1
        omega

theorem tracerouteWalk_map_hop_number (p : Nat → Option (String × ℚ)) (t : String) :
    ∀ fuel ttl, (tracerouteWalk p t ttl fuel).map Hop.hop_number =
      List.range' ttl (tracerouteWalk p t ttl fuel).length := by
  intro fuel
  induction fuel with
  | zero => intro ttl; simp [tracerouteWalk]
  | succ fuel ih =>
    intro ttl
    rw [tracerouteWalk_succ]
    cases h : hopMatchesTarget (probe_hop p ttl) t with
    | true => simp [probe_hop_hop_number, List.range'_succ]
    | false =>
      simp only [Bool.false_eq_true, if_false, List.map_cons, List.length_cons,
        List.range'_succ]
      rw [probe_hop_hop_number, ih (ttl + 1)]

theorem tracerouteWalk_mid_not_target (p : Nat → Option (String × ℚ)) (t : String) :
    ∀ fuel ttl i hp, i + 1 < (tracerouteWalk p t ttl fuel).length →
      (tracerouteWalk p t ttl fuel)[i]? = some hp → hopMatchesTarget hp t = false := by
  intro fuel
  induction fuel with
  | zero => intro ttl i hp hlen _; simp [tracerouteWalk] at hlen
  | succ fuel ih =>
    intro ttl i hp hlen h
    rw [tracerouteWalk_succ] at hlen h
    cases ht : hopMatchesTarget (probe_hop p ttl) t with
    | true => simp [ht] at hlen
    | false =>
      rw [ht] at hlen h
      simp only [Bool.false_eq_true, if_false, List.length_cons] at hlen h
      cases i with
      | zero =>
        rw [List.getElem?_cons_zero, Option.some.injEq] at h
        rw [← h]
        exact ht
      | succ i =>
        rw [List.getElem?_cons_succ] at h
        exact ih (ttl + 1) i hp (by omega) h

theorem tracerouteWalk_last_or_full (p : Nat → Option (String × ℚ)) (t : String) :
    ∀ fuel ttl, (tracerouteWalk p t ttl fuel).length = fuel ∨
      ∃ hp, (tracerouteWalk p t ttl fuel).getLast? = some hp ∧
        hopMatchesTarget hp t = true := by
  intro fuel
  induction fuel with
  | zero => intro ttl; left; simp [tracerouteWalk]
  | succ fuel ih =>
    intro ttl
    rw [tracerouteWalk_succ]
    cases h : hopMatchesTarget (probe_hop p ttl) t with
    | true =>
      right
      exact ⟨probe_hop p ttl, by simp, h⟩
    | false =>
      simp only [Bool.false_eq_true, if_false]
      rcases ih (ttl + 1) with hlen | ⟨hp, hlast, htar⟩
      · left
        simp [hlen]
      · right
        refine ⟨hp, ?_, htar⟩
        cases hw : tracerouteWalk p t (ttl + 1) fuel with
        | nil => rw [hw] at hlast; simp at hlast
        | cons b l =>
          rw [hw] at hlast
          rw [List.getLast?_cons_cons]
          exact hlast

theorem tracerouteWalk_continues (p : Nat → Option (String × ℚ)) (t : String) :
    ∀ fuel ttl i hp, (tracerouteWalk p t ttl fuel)[i]? = some hp →
      hopMatchesTarget hp t = false → i + 1 < fuel →
      i + 1 < (tracerouteWalk p t ttl fuel).length := by
  intro fuel
  induction fuel with
  | zero => intro ttl i hp h _ _; simp [tracerouteWalk] at h
  | succ fuel ih =>
    intro ttl i hp h hnt hlt
    rw [tracerouteWalk_succ] at h ⊢
    cases ht : hopMatchesTarget (probe_hop p ttl) t with
    | true =>
      rw [ht] at h
      cases i with
      | zero =>
        simp only [if_pos rfl, List.getElem?_cons_zero, Option.some.injEq] at h
        rw [h] at ht
        rw [ht] at hnt
        cases hnt
      | succ i => simp [if_pos rfl] at h
    | false =>
      rw [ht] at h
      simp only [Bool.false_eq_true, if_false, List.length_cons] at h ⊢
      cases i with
      | zero =>
        have hfuel : 0 < fuel := by omega
        have hne := tracerouteWalk_ne_nil p t (ttl + 1) fuel hfuel
        have hpos : 0 < (tracerouteWalk p t (ttl + 1) fuel).length :=
          List.length_pos.mpr hne
        omega
      | succ i =>
        rw [List.getElem?_cons_succ] at h
        have := ih (ttl + 1) i hp h hnt (by omega)
        omega

/-- C5: a completed hop-discovery run yields hops indexed exactly
`1..k` (strictly increasing, no gaps) for some `k ≤ max_hops`; every hop
before the last does not match the target, the walk ends at the first
target-matching hop or at the budget, a non-responding step is recorded as
an unsuccessful hop with index only (no address, no RTT), and such a failed
step does not abort the walk while budget remains. -/
theorem hop_walk_contract (cfg : TracerouteConfig) (net : TracerouteNet)
    (r : TracerouteResult)
    (h : TracerouteService.traceroute cfg net = .ok r) :
    r.hops.map Hop.hop_number = List.range' 1 r.hops.length ∧
    r.hops.length ≤ cfg.max_hops ∧
    (∀ i hp, i + 1 < r.hops.length → r.hops[i]? = some hp →
      hopMatchesTarget hp r.ip = false) ∧
    ((∃ hp, r.hops.getLast? = some hp ∧ hopMatchesTarget hp r.ip = true) ∨
      r.hops.length = cfg.max_hops) ∧
    (∀ ttl hp, 1 ≤ ttl → net.probe ttl = none → r.hops[ttl - 1]? = some hp →
      hp = { hop_number := ttl, ip := none, hostname := none, rtt := none,
             success := false }) ∧
    (∀ i hp, r.hops[i]? = some hp → hp.success = false → i + 1 < cfg.max_hops →
      i + 1 < r.hops.length) := by
  simp only [TracerouteService.traceroute] at h
  split at h
  · simp at h
  · rename_i target_ip hres
    rw [Except.ok.injEq] at h
    subst h
    refine ⟨?_, ?_, ?_, ?_, ?_, ?_⟩
    · exact tracerouteWalk_map_hop_number net.probe target_ip cfg.max_hops 1
    · exact tracerouteWalk_length_le net.probe target_ip cfg.max_hops 1
    · intro i hp hlen hget
      exact tracerouteWalk_mid_not_target net.probe target_ip cfg.max_hops 1 i hp hlen hget
    · rcases tracerouteWalk_last_or_full net.probe target_ip cfg.max_hops 1 with hl | hr
      · right; exact hl
      · left; exact hr
    · intro ttl hp httl hnone hget
      have := tracerouteWalk_get net.probe target_ip cfg.max_hops 1 (ttl - 1) hp hget
      have harith : 1 + (ttl - 1) = ttl := by omega
      rw [harith] at this
      rw [this]
      exact probe_hop_of_none net.probe ttl hnone
    · intro i hp hget hfail hbudget
      have hform := tracerouteWalk_get net.probe target_ip cfg.max_hops 1 i hp hget
      have hnone : net.probe (1 + i) = none := by
        rw [hform] at hfail
        exact (probe_hop_success_iff net.probe (1 + i)).mp hfail
      have hnt : hopMatchesTarget hp target_ip = false := by
        rw [hform]
        exact probe_hop_not_target_of_none net.probe target_ip (1 + i) hnone
      exact tracerouteWalk_continues net.probe target_ip cfg.max_hops 1 i hp hget hnt hbudget

theorem hop_walk_contract_witness :
    (([⟨1, none, none, none, false⟩,
       ⟨2, some "10.0.0.2", (reverse_dns_lookup "10.0.0.2").toOption, some 10, true⟩] :
        List Hop).map Hop.hop_number =
      List.range' 1 ([⟨1, none, none, none, false⟩,
       ⟨2, some "10.0.0.2", (reverse_dns_lookup "10.0.0.2").toOption, some 10, true⟩] :
        List Hop).length) ∧
    (([⟨1, none, none, none, false⟩,
       ⟨2, some "10.0.0.2", (reverse_dns_lookup "10.0.0.2").toOption, some 10, true⟩] :
        List Hop).length ≤ 3) := by
  have h := hop_walk_contract
    { host := "example.com", max_hops := 3, timeout := 3000, delay := 100, packet_size := 60 }
    { resolve := some "10.0.0.2",
      probe := fun ttl => if ttl = 1 then none else some ("10.0.0.2", 10),
      elapsed := 1 }
    { host := "example.com", ip := "10.0.0.2",
      hops := [⟨1, none, none, none, false⟩,
        ⟨2, some "10.0.0.2", (reverse_dns_lookup "10.0.0.2").toOption, some 10, true⟩],
      max_hops := 3, total_time := 1 }
    rfl
  exact ⟨h.1, h.2.1⟩

/-! ## Claim C6 -/

/-- C6: a transport failure makes `test_website` return normally with
`success = false`, the error display string, and absent status, content
length and headers, while an unsupported HTTP method is a hard error
produced before the request is ever sent. -/
theorem website_failure_contract
    (cfg : WebsiteTestConfig) (net : WebsiteNet) (m msg : String) (t : ℚ)
    (cfg2 : WebsiteTestConfig) (net2 : WebsiteNet)
    (hb : net.build_err = none)
    (hm : httpMethodCase cfg.method = some m)
    (ht : net.transport = HttpTransport.err msg t)
    (hbad : httpMethodCase cfg2.method = none) :
    WebsiteTestService.test_website cfg net =
      .ok { url := cfg.url, status_code := none, response_time := t,
            content_length := none, success := false,
            error_message := some msg, headers := [] } ∧
    (∃ e, WebsiteTestService.test_website cfg2 net2 = .error e) ∧
    websiteSends cfg2 net2 = false := by
  refine ⟨?_, ?_, ?_⟩
  · simp [WebsiteTestService.test_website, hb, hm, ht]
  · cases hb2 : net2.build_err with
    | some e =>
      exact ⟨.Http ("Failed to build HTTP client: " ++ e),
        by simp [WebsiteTestService.test_website, hb2]⟩
    | none =>
      exact ⟨.InvalidInput ("Unsupported HTTP method: " ++ cfg2.method),
        by simp [WebsiteTestService.test_website, hb2, hbad]⟩
  · simp [websiteSends, hbad]

theorem website_failure_contract_witness :
    WebsiteTestService.test_website
        { url := "https://example.com", method := "GET", timeout := 30000,
          follow_redirects := true, verify_ssl := true, headers := [] }
        { build_err := none, transport := HttpTransport.err "connection refused" 7 } =
      .ok { url := "https://example.com", status_code := none, response_time := 7,
            content_length := none, success := false,
            error_message := some "connection refused", headers := [] } ∧
    websiteSends
        { url := "https://example.com", method := "PATCH", timeout := 30000,
          follow_redirects := true, verify_ssl := true, headers := [] }
        { build_err := none, transport := HttpTransport.err "x" 1 } = false := by
  have h := website_failure_contract
    { url := "https://example.com", method := "GET", timeout := 30000,
      follow_redirects := true, verify_ssl := true, headers := [] }
    { build_err := none, transport := HttpTransport.err "connection refused" 7 }
    "GET" "connection refused" 7
    { url := "https://example.com", method := "PATCH", timeout := 30000,
      follow_redirects := true, verify_ssl := true, headers := [] }
    { build_err := none, transport := HttpTransport.err "x" 1 }
    rfl (by decide) rfl (by decide)
  exact ⟨h.1, h.2.2⟩

/-! ## Claim C7 -/

theorem dnsBranchA_ttl (config : DnsConfig) (net : DnsNet) (r : DnsQueryResult)
    (h : dnsBranchA config net = .ok r) : ∀ rec ∈ r.records, rec.ttl = 300 := by
  unfold dnsBranchA at h
  split at h
  · simp at h
  · rw [Except.ok.injEq] at h
    subst h
    intro rec hrec
    simp only [List.mem_filterMap] at hrec
    obtain ⟨a, -, ha⟩ := hrec
    cases a with
    | v4 addr ttl =>
      simp only [Option.some.injEq] at ha
      rw [← ha]
    | v6 addr ttl => simp at ha

theorem dnsBranchAAAA_ttl (config : DnsConfig) (net : DnsNet) (r : DnsQueryResult)
    (h : dnsBranchAAAA config net = .ok r) : ∀ rec ∈ r.records, rec.ttl = 300 := by
  unfold dnsBranchAAAA at h
  split at h
  · simp at h
  · rw [Except.ok.injEq] at h
    subst h
    intro rec hrec
    simp only [List.mem_filterMap] at hrec
    obtain ⟨a, -, ha⟩ := hrec
    cases a with
    | v4 addr ttl => simp at ha
    | v6 addr ttl =>
      simp only [Option.some.injEq] at ha
      rw [← ha]

theorem dnsBranchMX_ttl (config : DnsConfig) (net : DnsNet) (r : DnsQueryResult)
    (h : dnsBranchMX config net = .ok r) : ∀ rec ∈ r.records, rec.ttl = 300 := by
  unfold dnsBranchMX at h
  split at h
  · simp at h
  · rw [Except.ok.injEq] at h
    subst h
    intro rec hrec
    simp only [List.mem_map] at hrec
    obtain ⟨a, -, ha⟩ := hrec
    rw [← ha]

theorem dnsBranchTXT_ttl (config : DnsConfig) (net : DnsNet) (r : DnsQueryResult)
    (h : dnsBranchTXT config net = .ok r) : ∀ rec ∈ r.records, rec.ttl = 300 := by
  unfold dnsBranchTXT at h
  split at h
  · simp at h
  · rw [Except.ok.injEq] at h
    subst h
    intro rec hrec
    simp only [List.mem_map] at hrec
    obtain ⟨a, -, ha⟩ := hrec
    rw [← ha]

theorem dnsBranchNS_ttl (config : DnsConfig) (net : DnsNet) (r : DnsQueryResult)
    (h : dnsBranchNS config net = .ok r) : ∀ rec ∈ r.records, rec.ttl = 300 := by
  unfold dnsBranchNS at h
  split at h
  · simp at h
  · rw [Except.ok.injEq] at h
    subst h
    intro rec hrec
    simp only [List.mem_map] at hrec
    obtain ⟨a, -, ha⟩ := hrec
    rw [← ha]

/-- C7 fails: the resolver hands the query a record whose TTL is 60, yet the
emitted `DnsRecord` carries the hard-coded default 300 — the resolver TTL is
never read. -/
theorem dns_ttl_counterexample :
    DnsService.query
        { domain := "example.com", query_type := DnsQueryType.A,
          nameserver := none, timeout := 5000 }
        { lookup_ip := .ok [LookupAddr.v4 "1.2.3.4" 60],
          mx_lookup := .ok [], txt_lookup := .ok [], ns_lookup := .ok [],
          elapsed := 3 } =
      .ok { domain := "example.com", query_type := "A",
            records := [{ record_type := "A", value := "1.2.3.4", ttl := 300 }],
            response_time := 3 } ∧
    (300 : Nat) ≠ 60 := by
  constructor
  · rfl
  · decide

/-- C7 amended: every record produced by `DnsService::query` carries the
fixed default TTL 300, regardless of any TTL the resolver supplies. -/
theorem dns_ttl_always_default (config : DnsConfig) (net : DnsNet)
    (r : DnsQueryResult) (h : DnsService.query config net = .ok r) :
    ∀ rec ∈ r.records, rec.ttl = 300 := by
  unfold DnsService.query at h
  split at h
  all_goals first
    | exact dnsBranchA_ttl _ _ _ h
    | exact dnsBranchAAAA_ttl _ _ _ h
    | exact dnsBranchMX_ttl _ _ _ h
    | exact dnsBranchTXT_ttl _ _ _ h
    | exact dnsBranchNS_ttl _ _ _ h

theorem dns_ttl_always_default_witness :
    ({ record_type := "A", value := "1.2.3.4", ttl := 300 : DnsRecord }).ttl = 300 :=
  dns_ttl_always_default
    { domain := "example.com", query_type := DnsQueryType.A,
      nameserver := none, timeout := 5000 }
    { lookup_ip := .ok [LookupAddr.v4 "1.2.3.4" 60],
      mx_lookup := .ok [], txt_lookup := .ok [], ns_lookup := .ok [],
      elapsed := 3 }
    { domain := "example.com", query_type := "A",
      records := [{ record_type := "A", value := "1.2.3.4", ttl := 300 }],
      response_time := 3 }
    rfl
    { record_type := "A", value := "1.2.3.4", ttl := 300 }
    (by simp)

/-! ## Claim C8 -/

/-- C8: malformed or inverted port ranges are rejected with an error before
any connection attempt, and well-formed input yields the single port or the
full inclusive start..end list, which the scanner then probes one connection
per port. -/
theorem port_range_contract (range : String) (openPorts : Nat → Bool) :
    (∀ e, parse_port_range range = .error e →
      (handle_port_scan range openPorts).2 = 0) ∧
    (∀ s e, range.data.contains '-' = true →
      (range.data.splitOn '-').length = 2 →
      parseU16 ⟨(range.data.splitOn '-').getD 0 []⟩ = .ok s →
      parseU16 ⟨(range.data.splitOn '-').getD 1 []⟩ = .ok e →
      s > e → parse_port_range range = .error "Invalid port range: start > end") ∧
    (∀ p, range.data.contains '-' = false → parseU16 range = .ok p →
      parse_port_range range = .ok [p] ∧
      (handle_port_scan range openPorts).1 = .ok [(p, openPorts p)]) ∧
    (∀ s e, range.data.contains '-' = true →
      (range.data.splitOn '-').length = 2 →
      parseU16 ⟨(range.data.splitOn '-').getD 0 []⟩ = .ok s →
      parseU16 ⟨(range.data.splitOn '-').getD 1 []⟩ = .ok e →
      s ≤ e →
      parse_port_range range = .ok (List.range' s (e + 1 - s)) ∧
      (handle_port_scan range openPorts).1 =
        .ok ((List.range' s (e + 1 - s)).map (fun p => (p, openPorts p)))) := by
  refine ⟨?_, ?_, ?_, ?_⟩
  · intro e he
    simp [handle_port_scan, he]
  · intro s e hdash hlen hs he hlt
    obtain ⟨p0, p1, hsplit⟩ := List.length_eq_two.mp hlen
    rw [hsplit] at hs he
    simp only [List.getD_cons_zero, List.getD_cons_succ] at hs he
    unfold parse_port_range
    rw [hdash, hsplit]
    simp [hs, he, hlt]
  · intro p hdash hp
    have hparse : parse_port_range range = .ok [p] := by
      unfold parse_port_range
      rw [hdash]
      simp [hp]
    exact ⟨hparse, by simp [handle_port_scan, hparse, scan_ports]⟩
  · intro s e hdash hlen hs he hle
    have hparse : parse_port_range range = .ok (List.range' s (e + 1 - s)) := by
      obtain ⟨p0, p1, hsplit⟩ := List.length_eq_two.mp hlen
      rw [hsplit] at hs he
      simp only [List.getD_cons_zero, List.getD_cons_succ] at hs he
      unfold parse_port_range
      rw [hdash, hsplit]
      have hnlt : ¬ e < s := by omega
      simp [hs, he, hnlt]
    exact ⟨hparse, by simp [handle_port_scan, hparse, scan_ports]⟩

theorem port_range_contract_witness :
    parse_port_range "65000-1" = .error "Invalid port range: start > end" ∧
    (handle_port_scan "65000-1" (fun _ => false)).2 = 0 := by
  have h := port_range_contract "65000-1" (fun _ => false)
  have herr := h.2.1 65000 1 (by decide) (by decide) (by decide) (by decide) (by decide)
  exact ⟨herr, h.1 _ herr⟩

/-! ## Claim C2 -/

/-- C2 fails: every connection subscribes to the one broadcast channel
created in `WebSocketHandler::new`, so the response to a request from
session 1 is also delivered to the distinct concurrent session 2. -/
theorem response_delivered_to_other_session :
    deliveredTo
        [handle_websocket (WebSocketHandler.new 0) 1,
         handle_websocket (WebSocketHandler.new 0) 2]
        (responseChannel (WebSocketHandler.new 0)
          (handle_websocket (WebSocketHandler.new 0) 1)) = [1, 2] ∧
    (2 : Nat) ≠ 1 := by
  constructor
  · rfl
  · decide

/-- C2 amended: the handler owns a single broadcast channel, created once in
`WebSocketHandler::new` and shared by every connection; a response published
for any requester is delivered to every live session, not only the one that
sent the request. -/
theorem broadcast_shared_across_sessions
    (handler : WebSocketHandler) (sids : List Nat) (requester : WsSession) :
    deliveredTo (sids.map (handle_websocket handler))
      (responseChannel handler requester) = sids := by
  induction sids with
  | nil => rfl
  | cons a l ih =>
    simpa [deliveredTo, responseChannel, handle_websocket, List.filter_cons]
      using ih

end NetworkProbe
